import Mathlib

/-!
Verification development for the invoice-reader backend
(`src/backend/app/main.py`).

The Python source extracts structured invoice fields from OCR text with
`re.search` / `re.findall` / `re.match` over a fixed list of regular
expressions, and wraps everything in an HTTP handler `upload_invoice`.

We embed the code shallowly:

* Text is `List Char` (Python `str` indexing/slicing is by character).
  Character classes of the source regexes are modelled on the ASCII
  fragment (`\s` as the six ASCII whitespace characters, `\d` as `0`-`9`,
  `[a-zA-Z]` as ASCII letters); every character appearing in the source's
  own patterns, test strings and records is ASCII or `€`/`š`/`đ`, for
  which this fragment is faithful.
* Each regex is a sequence of `Atom`s (literal, greedy bounded character
  class repetition, optional alternation of literals), matched by an
  explicitly backtracking continuation-passing matcher `matchAtoms` with
  Python's semantics: greedy quantifiers try the longest count first,
  alternations are tried left to right, `re.search` scans start positions
  left to right.  Every regex of the source falls in this atom language.
* `re.findall(p, t)[0]` (used by `find_date`) equals the leftmost match,
  which is what `searchPat` returns, so both `re.search` and the
  `findall`-then-first idiom are embedded by `searchPat`.
* The async HTTP handler becomes a pure function over its request inputs;
  Python exceptions become `Except` values, so "an inner step raised" is
  an explicit input alternative.
-/

/-- ASCII whitespace, the fragment of Python's `\s` (and `str.strip`)
relevant here: space, tab, newline, carriage return, vertical tab,
form feed. -/
def isSpaceCh (c : Char) : Bool :=
  c == ' ' || c == '\t' || c == '\n' || c == '\r' || c == '\x0b' || c == '\x0c'

/-- The six characters recognised by `isSpaceCh`, as a list. -/
def spaceChars : List Char := [' ', '\t', '\n', '\r', '\x0b', '\x0c']

/-- ASCII digit, Python `\d` on the ASCII fragment. -/
def isDigitCh (c : Char) : Bool := '0' ≤ c && c ≤ '9'

/-- ASCII letter, Python `[a-zA-Z]`. -/
def isAsciiAlphaCh (c : Char) : Bool :=
  ('a' ≤ c && c ≤ 'z') || ('A' ≤ c && c ≤ 'Z')

/-- Python class `[:\s]`. -/
def isColonSpace (c : Char) : Bool := c == ':' || isSpaceCh c

/-- Python class `[.\s]`. -/
def isDotSpace (c : Char) : Bool := c == '.' || isSpaceCh c

/-- Python class `[./]`. -/
def isDotSlash (c : Char) : Bool := c == '.' || c == '/'

/-- Python class `[A-Z0-9-]` under `re.IGNORECASE`: ASCII letters of either
case, digits, hyphen. -/
def isInvNumCh (c : Char) : Bool := isAsciiAlphaCh c || isDigitCh c || c == '-'

/-- Python class `[0-9.,]`. -/
def isAmtCh (c : Char) : Bool := isDigitCh c || c == '.' || c == ','

/-- Python class `[A]` under `re.IGNORECASE`. -/
def isACh (c : Char) : Bool := c == 'A' || c == 'a'

/-- One regex atom.  Every pattern in the source is a sequence of these. -/
inductive Atom where
  /-- A literal string; `ci` selects case-insensitive comparison
  (`re.IGNORECASE`). -/
  | lit (ci : Bool) (s : List Char)
  /-- A greedy repetition `cls{lo,hi}` of a character class (`none` for an
  unbounded `hi`, covering `*` and `+`). -/
  | cls (p : Char → Bool) (lo : Nat) (hi : Option Nat)
  /-- An optional alternation of literals `(?:a|b|…)?`, greedy, tried left
  to right and finally empty. -/
  | optAlt (ci : Bool) (alts : List (List Char))

/-- Character comparison, optionally case-insensitive (ASCII lowering, as
Python `re.IGNORECASE` does on ASCII). -/
def charEq (ci : Bool) (a b : Char) : Bool :=
  if ci then a.toLower == b.toLower else a == b

/-- Match a literal at the head of `cs`; return the remaining suffix. -/
def litMatch (ci : Bool) : List Char → List Char → Option (List Char)
  | [], cs => some cs
  | _ :: _, [] => none
  | p :: ps, c :: cs => if charEq ci p c then litMatch ci ps cs else none

/-- Length of the longest prefix of `cs` of characters satisfying `p`,
capped at `n`. -/
def leadRun (p : Char → Bool) : Nat → List Char → Nat
  | _, [] => 0
  | 0, _ :: _ => 0
  | n + 1, c :: cs => if p c then leadRun p n cs + 1 else 0

/-- Backtracking over repetition counts: try consuming `n, n-1, …, lo`
characters, handing the rest to the continuation `k` (greedy order, as
Python). -/
def tryCounts {α : Type} (k : List Char → Option α) (cs : List Char) (lo : Nat) :
    Nat → Option α
  | 0 => k cs
  | n + 1 =>
    match k (cs.drop (n + 1)) with
    | some r => some r
    | none => if n + 1 ≤ lo then none else tryCounts k cs lo n

/-- Backtracking over the alternatives of an optional alternation: each
literal in order, then the empty alternative. -/
def altTry {α : Type} (ci : Bool) : List (List Char) → List Char →
    (List Char → Option α) → Option α
  | [], cs, k => k cs
  | a :: as, cs, k =>
    match litMatch ci a cs with
    | some rest =>
      match k rest with
      | some r => some r
      | none => altTry ci as cs k
    | none => altTry ci as cs k

/-- Match one atom at the head of `cs`, passing the remaining suffix to the
continuation `k`; backtracks into `k` exactly as a Python regex engine
does. -/
def matchAtom {α : Type} : Atom → List Char → (List Char → Option α) → Option α
  | .lit ci s, cs, k =>
    match litMatch ci s cs with
    | some rest => k rest
    | none => none
  | .cls p lo hi, cs, k =>
    let cap := match hi with | some n => n | none => cs.length
    let m := leadRun p cap cs
    if m < lo then none else tryCounts k cs lo m
  | .optAlt ci alts, cs, k => altTry ci alts cs k

/-- Match a sequence of atoms, continuation-passing. -/
def matchAtoms {α : Type} : List Atom → List Char → (List Char → Option α) →
    Option α
  | [], cs, k => k cs
  | a :: as, cs, k => matchAtom a cs (fun cs' => matchAtoms as cs' k)

/-- A source pattern, split as the atoms before the capture group and the
atoms of the capture group (`match.group(1)`); for patterns without a
group (the date patterns) `pre = []` and the group is the whole match. -/
structure Pat where
  pre : List Atom
  grp : List Atom

/-- Try to match `pat` anchored at the start of `cs`; on success return the
characters captured by the group. -/
def matchPatAt (pat : Pat) (cs : List Char) : Option (List Char) :=
  matchAtoms pat.pre cs (fun cs1 =>
    matchAtoms pat.grp cs1 (fun cs2 => some (cs1.take (cs1.length - cs2.length))))

/-- Python `re.search`: scan start positions left to right, return the
group of the leftmost match.  Also embeds `re.findall(p, t)[0]`. -/
def searchPat (pat : Pat) : List Char → Option (List Char)
  | [] => matchPatAt pat []
  | c :: cs =>
    match matchPatAt pat (c :: cs) with
    | some g => some g
    | none => searchPat pat cs

/-- Python `re.match(r'^…$', s)` as a Bool: the atoms must consume the
whole string. -/
def matchFull (atoms : List Atom) (cs : List Char) : Bool :=
  (matchAtoms atoms cs (fun rest => if rest.isEmpty then some () else none)).isSome

/-- The loop body shared by the five `find_invoice_number` patterns and,
with other labels, by `find_total_amount`: first pattern whose search
succeeds wins. -/
def findFirstPat : List Pat → List Char → Option (List Char)
  | [], _ => none
  | p :: ps, cs =>
    match searchPat p cs with
    | some g => some g
    | none => findFirstPat ps cs

/-- The sentinel returned by every extractor when nothing matches. -/
def sentinel : String := "Nije pronađen"

/-- `r'<label>[:\s]*([A-Z0-9-]+)'` with `re.IGNORECASE`, parameterised by
the label and the separator class. -/
def invPat (label : List Char) (sep : Char → Bool) : Pat :=
  ⟨[.lit true label, .cls sep 0 none], [.cls isInvNumCh 1 none]⟩

/-- The five patterns of `find_invoice_number`, in source order:
`Faktura[:\s]*([A-Z0-9-]+)`, `Invoice[:\s]*([A-Z0-9-]+)`,
`Broj[:\s]*([A-Z0-9-]+)`, `Br[.\s]*([A-Z0-9-]+)`,
`FAKTURA[\s]*([A-Z0-9-]+)`, all `re.IGNORECASE`. -/
def invoicePatterns : List Pat :=
  [ invPat "Faktura".data isColonSpace,
    invPat "Invoice".data isColonSpace,
    invPat "Broj".data isColonSpace,
    invPat "Br".data isDotSpace,
    invPat "FAKTURA".data isSpaceCh ]

/-- `r'\d{1,2}[./]\d{1,2}[./]\d{2,4}'` (whole match is the result). -/
def datePat1 : Pat :=
  ⟨[], [.cls isDigitCh 1 (some 2), .cls isDotSlash 1 (some 1),
        .cls isDigitCh 1 (some 2), .cls isDotSlash 1 (some 1),
        .cls isDigitCh 2 (some 4)]⟩

/-- `r'\d{4}-\d{2}-\d{2}'`. -/
def datePat2 : Pat :=
  ⟨[], [.cls isDigitCh 4 (some 4), .lit false "-".data,
        .cls isDigitCh 2 (some 2), .lit false "-".data,
        .cls isDigitCh 2 (some 2)]⟩

/-- `r'\d{1,2}\s+[a-zA-Z]+\s+\d{4}'`. -/
def datePat3 : Pat :=
  ⟨[], [.cls isDigitCh 1 (some 2), .cls isSpaceCh 1 none,
        .cls isAsciiAlphaCh 1 none, .cls isSpaceCh 1 none,
        .cls isDigitCh 4 (some 4)]⟩

/-- The three patterns of `find_date`, in source order. -/
def datePatterns : List Pat := [datePat1, datePat2, datePat3]

/-- The currency alternation `(?:RSD|EUR|USD|€|\$)` of `find_total_amount`. -/
def currencyAlts : List (List Char) :=
  ["RSD".data, "EUR".data, "USD".data, "€".data, "$".data]

/-- `r'<label>[:\s]*([0-9.,]+\s*(?:RSD|EUR|USD|€|\$)?)'` with
`re.IGNORECASE`. -/
def amtPat (label : List Char) : Pat :=
  ⟨[.lit true label, .cls isColonSpace 0 none],
   [.cls isAmtCh 1 none, .cls isSpaceCh 0 none, .optAlt true currencyAlts]⟩

/-- The five patterns of `find_total_amount`, in source order; the last is
`r'SUM[A]?[:\s]*([0-9.,]+\s*(?:RSD|EUR|USD|€|\$)?)'`. -/
def amountPatterns : List Pat :=
  [ amtPat "UKUPNO".data,
    amtPat "TOTAL".data,
    amtPat "Za uplatu".data,
    amtPat "Iznos".data,
    ⟨[.lit true "SUM".data, .cls isACh 0 (some 1), .cls isColonSpace 0 none],
     [.cls isAmtCh 1 none, .cls isSpaceCh 0 none, .optAlt true currencyAlts]⟩ ]

/-- `find_invoice_number` from the source: first matching pattern's group,
else the sentinel. -/
def find_invoice_number (text : String) : String :=
  match findFirstPat invoicePatterns text.data with
  | some g => ⟨g⟩
  | none => sentinel

/-- `find_date` from the source: for each pattern in order,
`re.findall(...)`; return the first match of the first pattern with any
match, else the sentinel. -/
def find_date (text : String) : String :=
  match findFirstPat datePatterns text.data with
  | some g => ⟨g⟩
  | none => sentinel

/-- `find_total_amount` from the source. -/
def find_total_amount (text : String) : String :=
  match findFirstPat amountPatterns text.data with
  | some g => ⟨g⟩
  | none => sentinel

/-- Python `"…".split('\n')` on character lists. -/
def splitLines : List Char → List (List Char)
  | [] => [[]]
  | c :: cs =>
    if c = '\n' then [] :: splitLines cs
    else
      match splitLines cs with
      | [] => [[c]]
      | l :: ls => (c :: l) :: ls

/-- Drop leading ASCII whitespace. -/
def dropLeadSpace : List Char → List Char
  | [] => []
  | c :: cs => if isSpaceCh c then dropLeadSpace cs else c :: cs

/-- Python `str.strip()` on the ASCII fragment. -/
def stripChars (cs : List Char) : List Char :=
  (dropLeadSpace ((dropLeadSpace cs).reverse)).reverse

/-- ASCII lowering of a character list, Python `str.lower()` on the ASCII
fragment. -/
def lowerChars (cs : List Char) : List Char := cs.map Char.toLower

/-- Does `needle` begin `hay`? -/
def beginsWith : List Char → List Char → Bool
  | [], _ => true
  | _ :: _, [] => false
  | a :: as, b :: bs => a == b && beginsWith as bs

/-- Python `needle in hay` substring membership. -/
def containsSub (needle : List Char) : List Char → Bool
  | [] => needle.isEmpty
  | c :: cs => beginsWith needle (c :: cs) || containsSub needle cs

/-- The keyword list of `find_vendor_name`. -/
def vendorKeywords : List (List Char) :=
  ["faktura".data, "invoice".data, "datum".data, "date".data,
   "ukupno".data, "total".data]

/-- `r'^\d+[./]\d+[./]\d+$'`, the "looks like a date" exclusion of
`find_vendor_name`. -/
def dateLineAtoms : List Atom :=
  [.cls isDigitCh 1 none, .cls isDotSlash 1 (some 1),
   .cls isDigitCh 1 none, .cls isDotSlash 1 (some 1),
   .cls isDigitCh 1 none]

/-- `r'^[0-9.,]+\s*(?:RSD|EUR|USD)?$'`, the "looks like an amount"
exclusion of `find_vendor_name` (note: no `€`, no `$`, and
case-sensitive). -/
def amountLineAtoms : List Atom :=
  [.cls isAmtCh 1 none, .cls isSpaceCh 0 none,
   .optAlt false ["RSD".data, "EUR".data, "USD".data]]

/-- The acceptance test of `find_vendor_name` applied to a stripped line. -/
def vendorOk (s : List Char) : Bool :=
  !s.isEmpty && decide (3 < s.length) &&
    !(vendorKeywords.any (fun w => containsSub w (lowerChars s))) &&
    !matchFull dateLineAtoms s &&
    !matchFull amountLineAtoms s

/-- The line loop of `find_vendor_name`: first qualifying stripped line. -/
def findVendorLoop : List (List Char) → Option (List Char)
  | [] => none
  | l :: ls =>
    if vendorOk (stripChars l) then some (stripChars l) else findVendorLoop ls

/-- `find_vendor_name` from the source: scan the first 10 lines. -/
def find_vendor_name (text : String) : String :=
  match findVendorLoop ((splitLines text.data).take 10) with
  | some s => ⟨s⟩
  | none => sentinel

/-- The fixed-shape extracted record built by `extract_invoice_data` and by
the handler's canned fallback branches. -/
structure Extracted where
  invoice_number : String
  date : String
  total_amount : String
  vendor_name : String
  raw_text : String
deriving DecidableEq

/-- The shape returned by `process_with_deepseek_vision`: per its code it
returns either a dict with an `"error"` key or a dict with a `"text"`
key, never raising (its body is wrapped in its own try/except). -/
inductive OcrResult where
  | err (msg : String)
  | ok (text : String)

/-- The JSON envelope the handler returns (fields absent in a branch are
`none`). -/
structure Response where
  status : String
  message : Option String
  filename : Option String
  extracted_data : Option Extracted
  ocr_raw_text : Option String
deriving DecidableEq

/-- The canned "test data" record of the `ocr_failed` branch. -/
def testData : Extracted :=
  ⟨"TEST-001", "2024-01-15", "15.000,00 RSD", "Test Company DOO",
   "OCR not available - using test data"⟩

/-- The canned "fallback data" record of the `error_fallback` branch. -/
def fallbackData : Extracted :=
  ⟨"FALLBACK-001", "2024-01-01", "10.000,00 RSD", "Fallback Company",
   "Error occurred - fallback data"⟩

/-- `text[:500] + "..." if len(text) > 500 else text`. -/
def rawPreviewL (cs : List Char) : List Char :=
  if 500 < cs.length then cs.take 500 ++ "...".data else cs

/-- `extract_invoice_data` from the source: a dict carrying `"error"` gives
the OCR-FAILED record, otherwise the four field extractors run on the
text. -/
def extract_invoice_data (ocr : OcrResult) : Extracted :=
  match ocr with
  | .err _ => ⟨"OCR-FAILED", "N/A", "N/A", "N/A", "OCR processing failed"⟩
  | .ok text =>
    ⟨find_invoice_number text, find_date text, find_total_amount text,
     find_vendor_name text, ⟨rawPreviewL text.data⟩⟩

/-- `file.content_type.startswith(('image/', 'application/pdf'))`. -/
def contentTypeOk (ct : String) : Bool :=
  beginsWith "image/".data ct.data || beginsWith "application/pdf".data ct.data

/-- `ocr_result.get("text", "")[:200] + "..."` of the success branch. -/
def debugPreview (text : String) : String :=
  ⟨text.data.take 200 ++ "...".data⟩

/-- The body of the handler's `try:` block as an `Except` computation.
`readRes` is the outcome of `await file.read()` and `gw` the outcome of
the gateway call, each an `Except` so that a raising step is an explicit
input; `raise HTTPException(400, …)` is a thrown exception (FastAPI's
`HTTPException` derives from `Exception`, so it is NOT exempt from the
handler's blanket `except Exception`). -/
def tryBody (ct filename : String) (readRes : Except String Unit)
    (gw : Except String OcrResult) : Except String Response :=
  if !contentTypeOk ct then
    .error "400: Fajl mora biti slika (JPEG, PNG) ili PDF"
  else
    match readRes with
    | .error e => .error e
    | .ok _ =>
      match gw with
      | .error e => .error e
      | .ok ocr =>
        match ocr with
        | .err emsg =>
          .ok ⟨"ocr_failed", some ("OCR greška: " ++ emsg), none,
               some testData, none⟩
        | .ok text =>
          .ok ⟨"success", none, some filename,
               some (extract_invoice_data (.ok text)),
               some (debugPreview text)⟩

/-- `upload_invoice` from the source: the `try:` body with the blanket
`except Exception` that converts any raised exception into the
`error_fallback` envelope. -/
def upload_invoice (ct filename : String) (readRes : Except String Unit)
    (gw : Except String OcrResult) : Response :=
  match tryBody ct filename readRes gw with
  | .ok r => r
  | .error e =>
    ⟨"error_fallback", some ("Greška: " ++ e), none, some fallbackData, none⟩

/-- The concrete OCR text of the spec's extraction scenario. -/
def scenarioText : String :=
  "Faktura: INV-2024-001\n15.01.2024\nAcme Company DOO\nUKUPNO: 15.000,00 RSD"

/-- C1: on a successful OCR result carrying the scenario text,
`extract_invoice_data` returns invoice number `INV-2024-001`, date
`15.01.2024`, total amount `15.000,00 RSD` and vendor name
`Acme Company DOO`. -/
theorem C1_scenario_extraction :
    (extract_invoice_data (.ok scenarioText)).invoice_number = "INV-2024-001" ∧
    (extract_invoice_data (.ok scenarioText)).date = "15.01.2024" ∧
    (extract_invoice_data (.ok scenarioText)).total_amount = "15.000,00 RSD" ∧
    (extract_invoice_data (.ok scenarioText)).vendor_name = "Acme Company DOO" := by
  refine ⟨?_, ?_, ?_, ?_⟩ <;> decide

/-- C3 (code bug): a `text/plain` upload never reaches the gateway, but the
`HTTPException(400, …)` raised by the content-type check is swallowed by
the handler's own blanket `except Exception`, so the response is tagged
`error_fallback` and carries the fabricated FALLBACK-001 placeholder
record — not the validation rejection with tag `error` the spec
describes.  The equations hold for every gateway/read outcome, which is
what "rejected before any gateway call" amounts to here. -/
theorem C3_content_type_swallowed (readRes : Except String Unit)
    (gw : Except String OcrResult) :
    (upload_invoice "text/plain" "doc.txt" readRes gw).status = "error_fallback" ∧
    (upload_invoice "text/plain" "doc.txt" readRes gw).extracted_data =
      some fallbackData := by
  exact ⟨rfl, rfl⟩

/-- C6: whenever the content type is accepted and the gateway returns an
explicit error result, the handler responds `ocr_failed`, retains the
error message, and attaches exactly the canned test record
(`TEST-001`, `2024-01-15`, `15.000,00 RSD`, `Test Company DOO`). -/
theorem C6_gateway_error_ocr_failed (ct fn emsg : String)
    (hct : contentTypeOk ct = true) :
    upload_invoice ct fn (.ok ()) (.ok (.err emsg)) =
      ⟨"ocr_failed", some ("OCR greška: " ++ emsg), none, some testData, none⟩ ∧
    testData.invoice_number = "TEST-001" ∧
    testData.date = "2024-01-15" ∧
    testData.total_amount = "15.000,00 RSD" ∧
    testData.vendor_name = "Test Company DOO" := by
  refine ⟨?_, rfl, rfl, rfl, rfl⟩
  simp [upload_invoice, tryBody, hct]

/-- Closed witness for C6 at a concrete upload: content type `image/png`,
gateway error `API error 500`. -/
theorem C6_gateway_error_ocr_failed_witness :
    contentTypeOk "image/png" = true ∧
    (upload_invoice "image/png" "a.png" (.ok ()) (.ok (.err "API error 500")) =
      ⟨"ocr_failed", some ("OCR greška: " ++ "API error 500"), none,
       some testData, none⟩ ∧
     testData.invoice_number = "TEST-001" ∧
     testData.date = "2024-01-15" ∧
     testData.total_amount = "15.000,00 RSD" ∧
     testData.vendor_name = "Test Company DOO") :=
  ⟨by decide, C6_gateway_error_ocr_failed "image/png" "a.png" "API error 500" (by decide)⟩

/-- C9: `upload_invoice` is total over every combination of request inputs,
including those where an inner step raises (modelled by the `Except`
inputs): the response is always tagged `success`, `ocr_failed` or
`error_fallback` and always carries an extracted-data record. -/
theorem C9_no_exception_escape (ct fn : String) (readRes : Except String Unit)
    (gw : Except String OcrResult) :
    ((upload_invoice ct fn readRes gw).status = "success" ∨
     (upload_invoice ct fn readRes gw).status = "ocr_failed" ∨
     (upload_invoice ct fn readRes gw).status = "error_fallback") ∧
    (upload_invoice ct fn readRes gw).extracted_data.isSome = true := by
  unfold upload_invoice tryBody
  cases hct : contentTypeOk ct
  · simp
  · cases readRes with
    | error e => simp
    | ok u =>
      cases gw with
      | error e => simp
      | ok ocr => cases ocr <;> simp

/-- C7: the slash/dot date pattern is tried before the ISO pattern, so when
the text contains both forms (hypotheses: the slash/dot pattern has a
leftmost match `m`, and the ISO pattern also matches somewhere),
`find_date` returns `m`, the first slash/dot occurrence. -/
theorem C7_slash_dot_priority (text : String) (m : List Char)
    (h1 : searchPat datePat1 text.data = some m)
    (h2 : searchPat datePat2 text.data ≠ none) :
    find_date text = ⟨m⟩ := by
  unfold find_date datePatterns findFirstPat
  rw [h1]

/-- Closed witness for C7: the text carries an ISO date first and a
slash/dot date later, yet `find_date` returns the slash/dot one. -/
theorem C7_slash_dot_priority_witness :
    searchPat datePat1 "2024-01-15 i 15.01.2024".data = some "15.01.2024".data ∧
    searchPat datePat2 "2024-01-15 i 15.01.2024".data ≠ none ∧
    find_date "2024-01-15 i 15.01.2024" = "15.01.2024" :=
  ⟨by decide, by decide,
   C7_slash_dot_priority "2024-01-15 i 15.01.2024" "15.01.2024".data
     (by decide) (by decide)⟩

/-- C10: `find_date` also recognises the textual-month form
`\d{1,2}\s+[a-zA-Z]+\s+\d{4}` (not mentioned by the spec): when neither
the slash/dot nor the ISO pattern matches but the textual-month pattern
has leftmost match `m`, `find_date` returns `m` rather than the
sentinel. -/
theorem C10_textual_month_date (text : String) (m : List Char)
    (h1 : searchPat datePat1 text.data = none)
    (h2 : searchPat datePat2 text.data = none)
    (h3 : searchPat datePat3 text.data = some m) :
    find_date text = ⟨m⟩ := by
  simp [find_date, datePatterns, findFirstPat, h1, h2, h3]

/-- Closed witness for C10 at the text `5 January 2024`. -/
theorem C10_textual_month_date_witness :
    searchPat datePat1 "5 January 2024".data = none ∧
    searchPat datePat2 "5 January 2024".data = none ∧
    searchPat datePat3 "5 January 2024".data = some "5 January 2024".data ∧
    find_date "5 January 2024" = "5 January 2024" ∧
    find_date "5 January 2024" ≠ sentinel :=
  ⟨by decide, by decide, by decide,
   C10_textual_month_date "5 January 2024" "5 January 2024".data
     (by decide) (by decide) (by decide),
   by decide⟩

/-- C8: the `raw_text` field of `extract_invoice_data` is the text itself
when it has at most 500 characters, and the first 500 characters with
the three-character ellipsis marker appended when longer; in both cases
its length is at most 503. -/
theorem C8_raw_text_preview (text : String) :
    (text.length ≤ 500 → (extract_invoice_data (.ok text)).raw_text = text) ∧
    (500 < text.length →
      (extract_invoice_data (.ok text)).raw_text =
        ⟨text.data.take 500 ++ "...".data⟩) ∧
    (extract_invoice_data (.ok text)).raw_text.length ≤ 503 := by
  have hraw : (extract_invoice_data (.ok text)).raw_text = ⟨rawPreviewL text.data⟩ := rfl
  have hlen : text.length = text.data.length := rfl
  refine ⟨?_, ?_, ?_⟩
  · intro h
    rw [hraw]
    unfold rawPreviewL
    rw [if_neg (by omega)]
  · intro h
    rw [hraw]
    unfold rawPreviewL
    rw [if_pos (by omega)]
  · rw [hraw]
    show (rawPreviewL text.data).length ≤ 503
    unfold rawPreviewL
    by_cases h : 500 < text.data.length
    · rw [if_pos h]
      have htake := List.length_take 500 text.data
      simp only [List.length_append, List.length_cons, List.length_nil, htake]
      omega
    · rw [if_neg h]
      omega

/-- Closed witness for C8 on both branches: a short text is returned
unchanged, and a 501-character text is truncated to 503 characters. -/
theorem C8_raw_text_preview_witness :
    ("ab" : String).length ≤ 500 ∧
    (extract_invoice_data (.ok "ab")).raw_text = "ab" ∧
    500 < (⟨List.replicate 501 'a'⟩ : String).length ∧
    (extract_invoice_data (.ok ⟨List.replicate 501 'a'⟩)).raw_text =
      ⟨(List.replicate 501 'a').take 500 ++ "...".data⟩ := by
  have hlong : 500 < (⟨List.replicate 501 'a'⟩ : String).length := by
    show 500 < (List.replicate 501 'a').length
    rw [List.length_replicate]
    omega
  exact ⟨by decide, (C8_raw_text_preview "ab").1 (by decide),
         hlong, (C8_raw_text_preview ⟨List.replicate 501 'a'⟩).2.1 hlong⟩

/-- If no pattern of the list matches, the pattern loop returns nothing. -/
theorem findFirstPat_eq_none {pats : List Pat} {cs : List Char}
    (h : ∀ p ∈ pats, searchPat p cs = none) : findFirstPat pats cs = none := by
  induction pats with
  | nil => rfl
  | cons p ps ih =>
    have hp := h p (List.mem_cons_self p ps)
    simp [findFirstPat, hp]
    exact ih (fun q hq => h q (List.mem_cons_of_mem p hq))

/-- If no scanned line qualifies, the vendor loop returns nothing. -/
theorem findVendorLoop_eq_none {ls : List (List Char)}
    (h : ∀ l ∈ ls, vendorOk (stripChars l) = false) : findVendorLoop ls = none := by
  induction ls with
  | nil => rfl
  | cons l ls ih =>
    have hl := h l (List.mem_cons_self l ls)
    simp [findVendorLoop, hl]
    exact ih (fun q hq => h q (List.mem_cons_of_mem l hq))

/-- A line the vendor loop returns satisfies the acceptance test. -/
theorem findVendorLoop_eq_some {ls : List (List Char)} {s : List Char}
    (h : findVendorLoop ls = some s) : vendorOk s = true := by
  induction ls with
  | nil => simp [findVendorLoop] at h
  | cons l ls ih =>
    by_cases hv : vendorOk (stripChars l) = true
    · simp [findVendorLoop, hv] at h
      exact h ▸ hv
    · simp [findVendorLoop, Bool.eq_false_iff.mpr hv] at h
      exact ih h

/-- C2: whenever none of a field's patterns matches the text — and, for the
vendor field, no scanned line passes the acceptance test — each of the
four extractors returns exactly the sentinel `Nije pronađen`. -/
theorem C2_no_match_sentinel (text : String)
    (h1 : ∀ p ∈ invoicePatterns, searchPat p text.data = none)
    (h2 : ∀ p ∈ datePatterns, searchPat p text.data = none)
    (h3 : ∀ p ∈ amountPatterns, searchPat p text.data = none)
    (h4 : ∀ l ∈ (splitLines text.data).take 10, vendorOk (stripChars l) = false) :
    find_invoice_number text = sentinel ∧ find_date text = sentinel ∧
    find_total_amount text = sentinel ∧ find_vendor_name text = sentinel := by
  refine ⟨?_, ?_, ?_, ?_⟩
  · unfold find_invoice_number
    rw [findFirstPat_eq_none h1]
  · unfold find_date
    rw [findFirstPat_eq_none h2]
  · unfold find_total_amount
    rw [findFirstPat_eq_none h3]
  · unfold find_vendor_name
    rw [findVendorLoop_eq_none h4]

/-- Closed witness for C2 at the text `xy`: no pattern matches and no line
qualifies, and all four extractors return the sentinel. -/
theorem C2_no_match_sentinel_witness :
    (∀ p ∈ invoicePatterns, searchPat p "xy".data = none) ∧
    (∀ p ∈ datePatterns, searchPat p "xy".data = none) ∧
    (∀ p ∈ amountPatterns, searchPat p "xy".data = none) ∧
    (∀ l ∈ (splitLines "xy".data).take 10, vendorOk (stripChars l) = false) ∧
    (find_invoice_number "xy" = sentinel ∧ find_date "xy" = sentinel ∧
     find_total_amount "xy" = sentinel ∧ find_vendor_name "xy" = sentinel) :=
  ⟨by decide, by decide, by decide, by decide,
   C2_no_match_sentinel "xy" (by decide) (by decide) (by decide) (by decide)⟩

/-- Modelled from the claim's words for C5: a line that is "purely a
currency amount — a number optionally followed by a currency marker
among RSD, EUR, USD, €, $". -/
def specPureAmountLine (s : String) : Bool :=
  matchFull
    [.cls isAmtCh 1 none, .cls isSpaceCh 0 none,
     .optAlt false ["RSD".data, "EUR".data, "USD".data, "€".data, "$".data]]
    s.data

/-- Counterexample to C5 as stated: on the text `100 €` the first (and
only) line is purely a currency amount with the marker `€`, yet
`find_vendor_name` returns it, because the source's amount exclusion
regex `^[0-9.,]+\s*(?:RSD|EUR|USD)?$` omits `€` and `$`. -/
theorem C5_vendor_counterexample :
    find_vendor_name "100 €" = "100 €" ∧ specPureAmountLine "100 €" = true := by
  refine ⟨?_, ?_⟩ <;> decide

/-- C5 amended: the vendor scan never returns a line matching the source's
own exclusion patterns — the bare slash/dot date regex
`^\d+[./]\d+[./]\d+$` and the bare amount regex
`^[0-9.,]+\s*(?:RSD|EUR|USD)?$` (so amounts marked `€` or `$`, and ISO
dates, are not excluded). -/
theorem C5_vendor_amended (text : String) :
    find_vendor_name text = sentinel ∨
      (matchFull dateLineAtoms (find_vendor_name text).data = false ∧
       matchFull amountLineAtoms (find_vendor_name text).data = false) := by
  unfold find_vendor_name
  cases hfv : findVendorLoop ((splitLines text.data).take 10) with
  | none => exact Or.inl rfl
  | some s =>
    refine Or.inr ?_
    have hok := findVendorLoop_eq_some hfv
    unfold vendorOk at hok
    simp only [Bool.and_eq_true, Bool.not_eq_true'] at hok
    exact ⟨hok.1.2, hok.2⟩

/-- A character accepted by `isSpaceCh` is one of the six listed ASCII
whitespace characters. -/
theorem mem_spaceChars_of_isSpaceCh {c : Char} (h : isSpaceCh c = true) :
    c ∈ spaceChars := by
  simp only [isSpaceCh, Bool.or_eq_true, beq_iff_eq] at h
  simp only [spaceChars, List.mem_cons, List.not_mem_nil, or_false]
  tauto

/-- A nonempty literal whose head character rejects every whitespace
character cannot match at the head of an all-whitespace suffix. -/
theorem litMatch_eq_none_of_space {ci : Bool} {p : Char} {ps cs : List Char}
    (hp : ∀ c ∈ spaceChars, charEq ci p c = false)
    (hcs : cs.all isSpaceCh = true) :
    litMatch ci (p :: ps) cs = none := by
  cases cs with
  | nil => rfl
  | cons c cs =>
    have hc : isSpaceCh c = true :=
      (List.all_eq_true.mp hcs) c (List.mem_cons_self c cs)
    have hne := hp c (mem_spaceChars_of_isSpaceCh hc)
    simp [litMatch, hne]

/-- A class that rejects every whitespace character has an empty leading
run on all-whitespace input. -/
theorem leadRun_eq_zero_of_space {p : Char → Bool} {cs : List Char}
    (hp : ∀ c ∈ spaceChars, p c = false)
    (hcs : cs.all isSpaceCh = true) (n : Nat) :
    leadRun p n cs = 0 := by
  cases cs with
  | nil => cases n <;> rfl
  | cons c cs =>
    cases n with
    | zero => rfl
    | succ n =>
      have hc : isSpaceCh c = true :=
        (List.all_eq_true.mp hcs) c (List.mem_cons_self c cs)
      have := hp c (mem_spaceChars_of_isSpaceCh hc)
      simp [leadRun, this]

/-- An atom sequence starting with such a literal fails on all-whitespace
input. -/
theorem matchAtoms_lit_eq_none_of_space {α : Type} {ci : Bool} {p : Char}
    {ps : List Char} {rest : List Atom} {cs : List Char}
    {k : List Char → Option α}
    (hp : ∀ c ∈ spaceChars, charEq ci p c = false)
    (hcs : cs.all isSpaceCh = true) :
    matchAtoms (Atom.lit ci (p :: ps) :: rest) cs k = none := by
  simp [matchAtoms, matchAtom, litMatch_eq_none_of_space hp hcs]

/-- An atom sequence starting with a mandatory (`lo ≥ 1`) class that
rejects whitespace fails on all-whitespace input. -/
theorem matchAtoms_cls_eq_none_of_space {α : Type} {p : Char → Bool}
    {lo : Nat} {hi : Option Nat} {rest : List Atom} {cs : List Char}
    {k : List Char → Option α}
    (hlo : 1 ≤ lo) (hp : ∀ c ∈ spaceChars, p c = false)
    (hcs : cs.all isSpaceCh = true) :
    matchAtoms (Atom.cls p lo hi :: rest) cs k = none := by
  simp only [matchAtoms, matchAtom]
  rw [leadRun_eq_zero_of_space hp hcs]
  have h0 : 0 < lo := hlo
  rw [if_pos h0]

/-- If a pattern matches at no all-whitespace suffix, its search over an
all-whitespace text fails. -/
theorem searchPat_eq_none_of_space {pat : Pat}
    (hfail : ∀ cs : List Char, cs.all isSpaceCh = true → matchPatAt pat cs = none) :
    ∀ cs : List Char, cs.all isSpaceCh = true → searchPat pat cs = none := by
  intro cs
  induction cs with
  | nil =>
    intro h
    unfold searchPat
    exact hfail [] rfl
  | cons c cs ih =>
    intro h
    have htail : cs.all isSpaceCh = true :=
      List.all_eq_true.mpr fun x hx =>
        (List.all_eq_true.mp h) x (List.mem_cons_of_mem c hx)
    unfold searchPat
    rw [hfail (c :: cs) h]
    exact ih htail

/-- An invoice-number pattern cannot match all-whitespace input: its label
starts with a letter. -/
theorem matchPatAt_invPat_eq_none_of_space {hd : Char} {tl : List Char}
    {sep : Char → Bool} {cs : List Char}
    (hp : ∀ c ∈ spaceChars, charEq true hd c = false)
    (hcs : cs.all isSpaceCh = true) :
    matchPatAt (invPat (hd :: tl) sep) cs = none := by
  unfold matchPatAt invPat
  exact matchAtoms_lit_eq_none_of_space hp hcs

/-- An amount pattern cannot match all-whitespace input: its label starts
with a letter. -/
theorem matchPatAt_amtPat_eq_none_of_space {hd : Char} {tl cs : List Char}
    (hp : ∀ c ∈ spaceChars, charEq true hd c = false)
    (hcs : cs.all isSpaceCh = true) :
    matchPatAt (amtPat (hd :: tl)) cs = none := by
  unfold matchPatAt amtPat
  exact matchAtoms_lit_eq_none_of_space hp hcs

/-- No date pattern matches all-whitespace input: each starts with a
mandatory digit class. -/
theorem matchPatAt_datePat_eq_none_of_space {pat : Pat} {cs : List Char}
    (hpat : pat ∈ datePatterns) (hcs : cs.all isSpaceCh = true) :
    matchPatAt pat cs = none := by
  have hdig : ∀ c ∈ spaceChars, isDigitCh c = false := by decide
  simp only [datePatterns, List.mem_cons, List.not_mem_nil, or_false] at hpat
  rcases hpat with rfl | rfl | rfl
  · unfold matchPatAt datePat1
    exact matchAtoms_cls_eq_none_of_space (Nat.le_refl 1) hdig hcs
  · unfold matchPatAt datePat2
    exact matchAtoms_cls_eq_none_of_space (by omega) hdig hcs
  · unfold matchPatAt datePat3
    exact matchAtoms_cls_eq_none_of_space (Nat.le_refl 1) hdig hcs

/-- On all-whitespace text `find_invoice_number` returns the sentinel. -/
theorem find_invoice_number_of_space {text : String}
    (h : text.data.all isSpaceCh = true) :
    find_invoice_number text = sentinel := by
  have hnone : findFirstPat invoicePatterns text.data = none := by
    apply findFirstPat_eq_none
    intro p hp
    simp only [invoicePatterns, List.mem_cons, List.not_mem_nil, or_false] at hp
    rcases hp with rfl | rfl | rfl | rfl | rfl <;>
      exact searchPat_eq_none_of_space
        (fun cs hcs => matchPatAt_invPat_eq_none_of_space (by decide) hcs)
        text.data h
  unfold find_invoice_number
  rw [hnone]

/-- On all-whitespace text `find_date` returns the sentinel. -/
theorem find_date_of_space {text : String}
    (h : text.data.all isSpaceCh = true) :
    find_date text = sentinel := by
  have hnone : findFirstPat datePatterns text.data = none := by
    apply findFirstPat_eq_none
    intro p hp
    exact searchPat_eq_none_of_space
      (fun cs hcs => matchPatAt_datePat_eq_none_of_space hp hcs) text.data h
  unfold find_date
  rw [hnone]

/-- On all-whitespace text `find_total_amount` returns the sentinel. -/
theorem find_total_amount_of_space {text : String}
    (h : text.data.all isSpaceCh = true) :
    find_total_amount text = sentinel := by
  have hnone : findFirstPat amountPatterns text.data = none := by
    apply findFirstPat_eq_none
    intro p hp
    simp only [amountPatterns, List.mem_cons, List.not_mem_nil, or_false] at hp
    rcases hp with rfl | rfl | rfl | rfl | rfl
    · exact searchPat_eq_none_of_space
        (fun cs hcs => matchPatAt_amtPat_eq_none_of_space (by decide) hcs)
        text.data h
    · exact searchPat_eq_none_of_space
        (fun cs hcs => matchPatAt_amtPat_eq_none_of_space (by decide) hcs)
        text.data h
    · exact searchPat_eq_none_of_space
        (fun cs hcs => matchPatAt_amtPat_eq_none_of_space (by decide) hcs)
        text.data h
    · exact searchPat_eq_none_of_space
        (fun cs hcs => matchPatAt_amtPat_eq_none_of_space (by decide) hcs)
        text.data h
    · refine searchPat_eq_none_of_space (fun cs hcs => ?_) text.data h
      unfold matchPatAt
      exact matchAtoms_lit_eq_none_of_space (by decide) hcs
  unfold find_total_amount
  rw [hnone]

/-- `splitLines` never returns the empty list of lines. -/
theorem splitLines_ne_nil (cs : List Char) : splitLines cs ≠ [] := by
  cases cs with
  | nil => simp [splitLines]
  | cons c cs =>
    unfold splitLines
    by_cases h : c = '\n'
    · simp [h]
    · rw [if_neg h]
      cases splitLines cs <;> simp

/-- Every line of an all-whitespace text is all-whitespace. -/
theorem splitLines_all_space {cs : List Char} (h : cs.all isSpaceCh = true) :
    ∀ l ∈ splitLines cs, l.all isSpaceCh = true := by
  induction cs with
  | nil =>
    intro l hl
    simp [splitLines] at hl
    simp [hl]
  | cons c cs ih =>
    intro l hl
    have hc : isSpaceCh c = true :=
      (List.all_eq_true.mp h) c (List.mem_cons_self c cs)
    have hcs : cs.all isSpaceCh = true :=
      List.all_eq_true.mpr fun x hx =>
        (List.all_eq_true.mp h) x (List.mem_cons_of_mem c hx)
    unfold splitLines at hl
    by_cases hnl : c = '\n'
    · rw [if_pos hnl] at hl
      rcases List.mem_cons.mp hl with rfl | hl
      · rfl
      · exact ih hcs l hl
    · rw [if_neg hnl] at hl
      cases hsp : splitLines cs with
      | nil => exact absurd hsp (splitLines_ne_nil cs)
      | cons l0 ls0 =>
        rw [hsp] at hl
        rcases List.mem_cons.mp hl with rfl | hl
        · have hl0 : l0.all isSpaceCh = true :=
            ih hcs l0 (by rw [hsp]; exact List.mem_cons_self l0 ls0)
          simp [List.all_cons, hc, hl0]
        · exact ih hcs l (by rw [hsp]; exact List.mem_cons_of_mem l0 hl)

/-- Dropping leading whitespace from all-whitespace input leaves nothing. -/
theorem dropLeadSpace_eq_nil {cs : List Char} (h : cs.all isSpaceCh = true) :
    dropLeadSpace cs = [] := by
  induction cs with
  | nil => rfl
  | cons c cs ih =>
    have hc : isSpaceCh c = true :=
      (List.all_eq_true.mp h) c (List.mem_cons_self c cs)
    have hcs : cs.all isSpaceCh = true :=
      List.all_eq_true.mpr fun x hx =>
        (List.all_eq_true.mp h) x (List.mem_cons_of_mem c hx)
    simp [dropLeadSpace, hc, ih hcs]

/-- Stripping an all-whitespace line leaves the empty line. -/
theorem stripChars_eq_nil {cs : List Char} (h : cs.all isSpaceCh = true) :
    stripChars cs = [] := by
  unfold stripChars
  rw [dropLeadSpace_eq_nil h]
  rfl

/-- On all-whitespace text `find_vendor_name` returns the sentinel: every
stripped line is empty and fails the nonempty test. -/
theorem find_vendor_name_of_space {text : String}
    (h : text.data.all isSpaceCh = true) :
    find_vendor_name text = sentinel := by
  have hnone : findVendorLoop ((splitLines text.data).take 10) = none := by
    apply findVendorLoop_eq_none
    intro l hl
    have hls : l.all isSpaceCh = true :=
      splitLines_all_space h l (List.take_subset 10 _ hl)
    rw [stripChars_eq_nil hls]
    rfl
  unfold find_vendor_name
  rw [hnone]

/-- Counterexample to C4 as stated: when the gateway succeeds with empty
text, the handler does NOT substitute the canned test record under
`ocr_failed`; it returns a `success` response whose extracted fields are
all the sentinel — exactly the outcome the claim rules out.  (The source
has no empty/whitespace check at all.) -/
theorem C4_empty_text_counterexample :
    (upload_invoice "image/png" "a.png" (.ok ()) (.ok (.ok ""))).status =
      "success" ∧
    (upload_invoice "image/png" "a.png" (.ok ()) (.ok (.ok ""))).extracted_data ≠
      some testData ∧
    (upload_invoice "image/png" "a.png" (.ok ()) (.ok (.ok ""))).extracted_data =
      some ⟨sentinel, sentinel, sentinel, sentinel, ""⟩ := by
  refine ⟨?_, ?_, ?_⟩ <;> decide

/-- C4 amended: for every upload whose gateway call succeeds with empty or
whitespace-only text, the handler does not crash and returns a `success`
response whose four extracted fields are each the sentinel (no test-data
substitution, no `ocr_failed` tag). -/
theorem C4_empty_text_amended (ct fn text : String)
    (hct : contentTypeOk ct = true)
    (hws : text.data.all isSpaceCh = true) :
    upload_invoice ct fn (.ok ()) (.ok (.ok text)) =
      ⟨"success", none, some fn,
       some ⟨sentinel, sentinel, sentinel, sentinel, ⟨rawPreviewL text.data⟩⟩,
       some (debugPreview text)⟩ := by
  have h1 := find_invoice_number_of_space hws
  have h2 := find_date_of_space hws
  have h3 := find_total_amount_of_space hws
  have h4 := find_vendor_name_of_space hws
  simp [upload_invoice, tryBody, hct, extract_invoice_data, h1, h2, h3, h4]

/-- Closed witness for C4 amended at a whitespace-only text. -/
theorem C4_empty_text_amended_witness :
    contentTypeOk "image/png" = true ∧
    " \t ".data.all isSpaceCh = true ∧
    upload_invoice "image/png" "a.png" (.ok ()) (.ok (.ok " \t ")) =
      ⟨"success", none, some "a.png",
       some ⟨sentinel, sentinel, sentinel, sentinel, ⟨rawPreviewL " \t ".data⟩⟩,
       some (debugPreview " \t ")⟩ :=
  ⟨by decide, by decide,
   C4_empty_text_amended "image/png" "a.png" " \t " (by decide) (by decide)⟩
